import Mathlib

/-!
Shallow embedding of the mexc-screener repository core
(mexc_rsi_screener.py and web_app.py): indicator library, trend
classifier, cache handling, alert composition, scheduler boundary
computation and session event queues, together with theorems checking
the specification claims against these definitions.

Prices and indicator values are modelled as rationals; the Python
floats are abstracted to exact arithmetic.  Fallible computations
return Option, mirroring the None sentinel of the source.
-/

namespace Screener

/-! ### Indicator library (mexc_rsi_screener.py) -/

/-- One step of Wilder recursive smoothing, the formula
avg = (avg*(period-1) + new_value)/period inlined in calculate_rsi,
calculate_atr and compute_atr_series. -/
def wilder_step (period : ℕ) (avg newval : ℚ) : ℚ :=
  (avg * ((period : ℚ) - 1) + newval) / (period : ℚ)

/-- deltas list of calculate_rsi: deltas[i] = prices[i+1] - prices[i]. -/
def price_deltas (prices : List ℚ) : List ℚ :=
  List.zipWith (fun a b => a - b) prices.tail prices

/-- calculate_rsi from mexc_rsi_screener.py lines 169-191: sentinel when
len(prices) < period+1, else Wilder-smoothed average gain/loss with the
simultaneous update loop of the source, then the final RSI formula. -/
def calculate_rsi (prices : List ℚ) (period : ℕ) : Option ℚ :=
  if prices.length < period + 1 then none
  else
    let deltas := price_deltas prices
    let gains := deltas.map (fun d => if 0 < d then d else 0)
    let losses := deltas.map (fun d => if d < 0 then -d else 0)
    let avg_gain := (gains.take period).sum / (period : ℚ)
    let avg_loss := (losses.take period).sum / (period : ℚ)
    let final := ((gains.drop period).zip (losses.drop period)).foldl
      (fun avgs gl => (wilder_step period avgs.1 gl.1, wilder_step period avgs.2 gl.2))
      (avg_gain, avg_loss)
    if final.2 = 0 then some 100
    else some (100 - 100 / (1 + final.1 / final.2))

/-- The Wilder recursion as the specification words it, applied to each
subsequent sample of one series in turn. -/
def wilder_smooth (period : ℕ) : ℚ → List ℚ → ℚ
  | avg, [] => avg
  | avg, x :: xs => wilder_smooth period (wilder_step period avg x) xs

/-- The RSI computation restated from the specification sentence: seed the
average gain and loss with simple means of the first period gains and
losses, smooth each average separately with the Wilder recursion over every
subsequent delta, return 100 when the final average loss is zero and
100 - 100/(1 + avg_gain/avg_loss) otherwise. -/
def rsi_spec (prices : List ℚ) (period : ℕ) : Option ℚ :=
  if prices.length < period + 1 then none
  else
    let deltas := price_deltas prices
    let gains := deltas.map (fun d => if 0 < d then d else 0)
    let losses := deltas.map (fun d => if d < 0 then -d else 0)
    let avg_gain := wilder_smooth period ((gains.take period).sum / (period : ℚ))
      (gains.drop period)
    let avg_loss := wilder_smooth period ((losses.take period).sum / (period : ℚ))
      (losses.drop period)
    if avg_loss = 0 then some 100
    else some (100 - 100 / (1 + avg_gain / avg_loss))

/-- calculate_ema from mexc_rsi_screener.py lines 230-244: sentinel when
len(prices) < period + 20, else the SMA-seeded recursive EMA. -/
def calculate_ema (prices : List ℚ) (period : ℕ) : Option ℚ :=
  if prices.length < period + 20 then none
  else
    let multiplier : ℚ := 2 / ((period : ℚ) + 1)
    let seed := (prices.take period).sum / (period : ℚ)
    some ((prices.drop period).foldl (fun ema price => (price - ema) * multiplier + ema) seed)

/-- True-range series shared by calculate_atr and compute_atr_series:
tr[i-1] = max(high[i]-low[i], |high[i]-close[i-1]|, |low[i]-close[i-1]|)
for i = 1 .. len(closes)-1. -/
def true_ranges (highs lows closes : List ℚ) : List ℚ :=
  (List.range (closes.length - 1)).map (fun i =>
    max (highs.getD (i + 1) 0 - lows.getD (i + 1) 0)
      (max |highs.getD (i + 1) 0 - closes.getD i 0|
        |lows.getD (i + 1) 0 - closes.getD i 0|))

/-- compute_atr_series from mexc_rsi_screener.py lines 340-370: empty when
len(closes) < period+1, else the SMA seed followed by every Wilder-smoothed
intermediate value. -/
def compute_atr_series (highs lows closes : List ℚ) (period : ℕ) : List ℚ :=
  if closes.length < period + 1 then []
  else
    let trs := true_ranges highs lows closes
    if trs.length < period then []
    else
      let seed := (trs.take period).sum / (period : ℚ)
      (trs.drop period).scanl (fun atr tr => wilder_step period atr tr) seed

/-! ### Trend classifier -/

/-- Python closes[-length:] under the guard length <= len(closes). -/
def lastN (l : List ℚ) (n : ℕ) : List ℚ := l.drop (l.length - n)

/-- calculate_linear_regression from mexc_rsi_screener.py lines 314-338:
least-squares fit of y = slope*x + intercept over x = 0..length-1 and the
last length closes, with the R-squared convention r2 = 0 when ss_tot = 0. -/
def calculate_linear_regression (closes : List ℚ) (length : ℕ) :
    Option (ℚ × ℚ × ℚ) :=
  if closes.length < length then none
  else
    let y := lastN closes length
    let n : ℚ := (length : ℚ)
    let xs : List ℚ := (List.range length).map (fun i => (i : ℚ))
    let sx := xs.sum
    let sy := y.sum
    let sxy := (List.zipWith (fun a b => a * b) xs y).sum
    let sxx := (xs.map (fun x => x * x)).sum
    let slope := (n * sxy - sx * sy) / (n * sxx - sx * sx)
    let intercept := (sy - slope * sx) / n
    let y_pred := xs.map (fun x => slope * x + intercept)
    let ss_res := (List.zipWith (fun a b => (a - b) * (a - b)) y y_pred).sum
    let mean := sy / n
    let ss_tot := (y.map (fun v => (v - mean) * (v - mean))).sum
    let r_squared := if ss_tot = 0 then 0 else 1 - ss_res / ss_tot
    some (slope, intercept, r_squared)

structure LRConfig where
  length : ℕ
  atr_length : ℕ
  r2_threshold : ℚ
  slope_threshold : ℚ
  sideways_slope_threshold : ℚ
  volatility_ma_length : ℕ
deriving DecidableEq

structure TrendResult where
  slope : ℚ
  normalized_slope : ℚ
  r_squared : ℚ
  atr : ℚ
  volatility_regime : String
  trend : String
  confidence : ℚ
deriving DecidableEq

/-- The 1e-12 degenerate-ATR guard of classify_trend. -/
def epsATR : ℚ := 1 / 1000000000000

/-- classify_trend from mexc_rsi_screener.py lines 372-441. -/
def classify_trend (closes highs lows : List ℚ) (cfg : LRConfig) :
    Option TrendResult :=
  match calculate_linear_regression closes cfg.length with
  | none => none
  | some (slope, _intercept, r_squared) =>
    let atr_series := compute_atr_series highs lows closes cfg.atr_length
    if atr_series = [] then none
    else
      let current_atr := atr_series.getLastD 0
      if current_atr < epsATR then none
      else
        let normalized_slope := slope / current_atr
        let volatility_regime :=
          if cfg.volatility_ma_length ≤ atr_series.length then
            let atr_ma := (lastN atr_series cfg.volatility_ma_length).sum /
              (cfg.volatility_ma_length : ℚ)
            if atr_ma < current_atr then "HIGH" else "LOW"
          else "N/A"
        let abs_norm_slope := |normalized_slope|
        let trend :=
          if abs_norm_slope < cfg.sideways_slope_threshold ∨
              r_squared < cfg.r2_threshold then "Sideways"
          else if cfg.slope_threshold < normalized_slope ∧
              cfg.r2_threshold ≤ r_squared then "Uptrend"
          else if normalized_slope < -cfg.slope_threshold ∧
              cfg.r2_threshold ≤ r_squared then "Downtrend"
          else "Sideways"
        let confidence := max 0 (min 1 (r_squared * min abs_norm_slope 1))
        some { slope := slope, normalized_slope := normalized_slope,
               r_squared := r_squared, atr := current_atr,
               volatility_regime := volatility_regime, trend := trend,
               confidence := confidence }

/-! ### Stochastic alert composition (main / screener_loop, method 1 and 2) -/

/-- stoch_is_overbought = stoch_k > stoch_overbought or stoch_d > stoch_overbought. -/
def stoch_is_overbought (stoch_k stoch_d stoch_overbought : ℚ) : Bool :=
  decide (stoch_k > stoch_overbought) || decide (stoch_d > stoch_overbought)

/-- stoch_is_oversold = stoch_k < stoch_oversold or stoch_d < stoch_oversold. -/
def stoch_is_oversold (stoch_k stoch_d stoch_oversold : ℚ) : Bool :=
  decide (stoch_k < stoch_oversold) || decide (stoch_d < stoch_oversold)

inductive StochAlert where
  | overbought
  | oversold
  | oversoldAboveEma
  | overboughtBelowEma
deriving DecidableEq

/-- Stochastic alert branch of main in mexc_rsi_screener.py lines 630-661:
the list of stochastic alerts emitted for one symbol, given the method,
the %K/%D pair, the thresholds, the current price and the (possibly
undefined) long EMA.  Method 2 with a defined EMA runs the oversold and
overbought branches as two separate if statements. -/
def cli_stoch_alerts (method : ℤ) (stoch_k stoch_d overbought oversold current_price : ℚ)
    (ema_long : Option ℚ) : List StochAlert :=
  if method = 1 then
    if stoch_is_overbought stoch_k stoch_d overbought then [.overbought]
    else if stoch_is_oversold stoch_k stoch_d oversold then [.oversold]
    else []
  else if method = 2 then
    match ema_long with
    | none =>
      if stoch_is_overbought stoch_k stoch_d overbought then [.overbought]
      else if stoch_is_oversold stoch_k stoch_d oversold then [.oversold]
      else []
    | some ema =>
      (if stoch_is_oversold stoch_k stoch_d oversold && decide (current_price > ema)
        then [.oversoldAboveEma] else []) ++
      (if stoch_is_overbought stoch_k stoch_d overbought && decide (current_price < ema)
        then [.overboughtBelowEma] else [])
  else []

/-- Stochastic alert branch of screener_loop in web_app.py lines 231-255:
same structure, except that with a defined EMA the overbought test sits
in the elif of the oversold test. -/
def web_stoch_alerts (method : ℤ) (stoch_k stoch_d overbought oversold current_price : ℚ)
    (ema_long : Option ℚ) : List StochAlert :=
  if method = 1 then
    if stoch_is_overbought stoch_k stoch_d overbought then [.overbought]
    else if stoch_is_oversold stoch_k stoch_d oversold then [.oversold]
    else []
  else if method = 2 then
    match ema_long with
    | none =>
      if stoch_is_overbought stoch_k stoch_d overbought then [.overbought]
      else if stoch_is_oversold stoch_k stoch_d oversold then [.oversold]
      else []
    | some ema =>
      if stoch_is_oversold stoch_k stoch_d oversold && decide (current_price > ema)
        then [.oversoldAboveEma]
      else if stoch_is_overbought stoch_k stoch_d overbought && decide (current_price < ema)
        then [.overboughtBelowEma]
      else []
  else []

/-! ### Market-data cache (load_market_data and the per-symbol cycle step) -/

structure AssetEntry where
  last_updated : ℚ
  highs : List ℚ
  lows : List ℚ
  prices : List ℚ
deriving DecidableEq

/-- The market_data dict: per-symbol entries plus the _metadata timeframe
tag (none when the file carried no metadata). -/
structure StoredData where
  timeframe : Option ℤ
  entries : List (String × AssetEntry)
deriving DecidableEq

/-- load_market_data from mexc_rsi_screener.py lines 48-67, over the
parsed content of the data file: none models a missing or unparsable
file.  A timeframe tag different from the current timeframe wipes the
whole cache. -/
def load_market_data (stored : Option StoredData) (current_timeframe : ℤ) : StoredData :=
  match stored with
  | none => { timeframe := none, entries := [] }
  | some data =>
    if data.timeframe ≠ some current_timeframe then { timeframe := none, entries := [] }
    else data

def cacheGet (entries : List (String × AssetEntry)) (symbol : String) :
    Option AssetEntry :=
  (entries.find? (fun p => p.1 == symbol)).map (fun p => p.2)

/-- Dict assignment market_data[symbol] = entry on an association list. -/
def cacheSet : List (String × AssetEntry) → String → AssetEntry →
    List (String × AssetEntry)
  | [], symbol, entry => [(symbol, entry)]
  | p :: rest, symbol, entry =>
    if p.1 == symbol then (symbol, entry) :: rest
    else p :: cacheSet rest symbol entry

/-- Per-symbol step of the main cycle, mexc_rsi_screener.py lines 550-577:
the fetched argument is none on fetch failure or an unparsable response,
some (highs, lows, closes) otherwise (closes may be empty, which the
source treats as a parse failure via the if closes test).  Returns the
updated cache and the entry the indicator computation runs on (none means
the compute step is skipped for this symbol). -/
def processSymbol (entries : List (String × AssetEntry)) (symbol : String)
    (fetched : Option (List ℚ × List ℚ × List ℚ)) (now : ℚ) :
    List (String × AssetEntry) × Option AssetEntry :=
  let entries2 :=
    match fetched with
    | some (highs, lows, closes) =>
      if closes ≠ [] then
        cacheSet entries symbol
          { last_updated := now, highs := highs, lows := lows, prices := closes }
      else entries
    | none => entries
  (entries2, cacheGet entries2 symbol)

/-- Per-symbol step of screener_loop in web_app.py lines 147-166: no cache;
on fetch or parse failure (or empty closes) the symbol is skipped, else the
freshly parsed series feed the compute step. -/
def webProcessSymbol (fetched : Option (List ℚ × List ℚ × List ℚ)) :
    Option (List ℚ × List ℚ × List ℚ) :=
  match fetched with
  | some (highs, lows, closes) =>
    if closes ≠ [] then some (highs, lows, closes) else none
  | none => none

/-! ### Scheduler boundary and interval mapping -/

/-- The end-of-cycle wake-up instant, mexc_rsi_screener.py lines 709-711
and web_app.py lines 310-312: ((now_ts // interval_seconds) + 1) *
interval_seconds with Python floor division. -/
def next_interval (now_ts interval_seconds : ℤ) : ℤ :=
  (now_ts.fdiv interval_seconds + 1) * interval_seconds

/-- get_interval_str from mexc_rsi_screener.py lines 77-91: dict lookup
with default Min15. -/
def get_interval_str (minutes : ℤ) : String :=
  if minutes = 1 then "Min1"
  else if minutes = 5 then "Min5"
  else if minutes = 15 then "Min15"
  else if minutes = 30 then "Min30"
  else if minutes = 60 then "Min60"
  else if minutes = 240 then "Hour4"
  else if minutes = 480 then "Hour8"
  else if minutes = 1440 then "Day1"
  else if minutes = 10080 then "Week1"
  else if minutes = 43200 then "Month1"
  else "Min15"

/-- The metadata written at the end of a refreshed cycle,
mexc_rsi_screener.py line 704: the raw configured timeframe number. -/
def saved_metadata_timeframe (timeframe_mins : ℤ) : ℤ := timeframe_mins

/-! ### Sessions and the bounded event queue (web_app.py) -/

/-- A queue.Queue(maxsize) holding serialized events. -/
structure EventQueue where
  maxsize : ℕ
  items : List String
deriving DecidableEq

/-- queue.Queue.put_nowait: appends when there is room, raises queue.Full
(modelled as the false flag, queue unchanged) when qsize >= maxsize. -/
def put_nowait (q : EventQueue) (event : String) : EventQueue × Bool :=
  if q.maxsize ≤ q.items.length then (q, false)
  else ({ q with items := q.items ++ [event] }, true)

/-- A per-client session as created by get_session (web_app.py lines 58-69);
the thread handle is outside the model. -/
structure Session where
  running : Bool
  queue : EventQueue
deriving DecidableEq

abbrev Sessions := List (String × Session)

/-- The fresh session get_session installs: not running, empty queue of
capacity 500. -/
def newSession : Session :=
  { running := false, queue := { maxsize := 500, items := [] } }

def sessionsGet (sessions : Sessions) (session_id : String) : Option Session :=
  (sessions.find? (fun p => p.1 == session_id)).map (fun p => p.2)

/-- Dict assignment sessions[session_id] = s on an association list. -/
def sessionsSet : Sessions → String → Session → Sessions
  | [], session_id, s => [(session_id, s)]
  | p :: rest, session_id, s =>
    if p.1 == session_id then (session_id, s) :: rest
    else p :: sessionsSet rest session_id s

/-- get_session from web_app.py lines 58-69: create the session when
missing, then return the registry (and the session). -/
def get_session (sessions : Sessions) (session_id : String) : Sessions × Session :=
  match sessionsGet sessions session_id with
  | some s => (sessions, s)
  | none => (sessionsSet sessions session_id newSession, newSession)

/-- push_event from web_app.py lines 72-83: look the session up, return
with the registry untouched when it is absent, else put_nowait the event
and drop it silently when the queue is full. -/
def push_event (sessions : Sessions) (session_id : String) (event : String) : Sessions :=
  match sessionsGet sessions session_id with
  | none => sessions
  | some s =>
    let q2 := (put_nowait s.queue event).1
    sessionsSet sessions session_id { s with queue := q2 }

/-! ### Helper lemmas -/

lemma put_nowait_full (q : EventQueue) (event : String)
    (h : q.maxsize ≤ q.items.length) : put_nowait q event = (q, false) := by
  simp [put_nowait, h]

lemma sessionsSet_self (session_id : String) (s : Session) :
    ∀ sessions : Sessions, sessionsGet sessions session_id = some s →
      sessionsSet sessions session_id s = sessions := by
  intro sessions
  induction sessions with
  | nil => intro h; simp [sessionsGet] at h
  | cons p rest ih =>
    intro h
    by_cases hb : p.1 == session_id
    · have h1 : p.1 = session_id := by simpa using hb
      have h2 : p.2 = s := by
        simpa [sessionsGet, List.find?, hb] using h
      simp only [sessionsSet, hb, if_pos]
      rw [← h1, ← h2]
    · have h3 : sessionsGet rest session_id = some s := by
        simpa [sessionsGet, List.find?, hb] using h
      simp only [sessionsSet, hb, if_neg, Bool.false_eq_true, not_false_iff]
      rw [ih h3]

lemma replicate_take (k n : ℕ) (c : ℚ) (h : k ≤ n) :
    (List.replicate n c).take k = List.replicate k c := by
  induction k generalizing n with
  | zero => rfl
  | succ k ih =>
    cases n with
    | zero => omega
    | succ n =>
      simp only [List.replicate_succ, List.take_succ_cons]
      rw [ih n (by omega)]

lemma replicate_drop (k n : ℕ) (c : ℚ) :
    (List.replicate n c).drop k = List.replicate (n - k) c := by
  induction k generalizing n with
  | zero => simp
  | succ k ih =>
    cases n with
    | zero => simp
    | succ n =>
      simp only [List.replicate_succ, List.drop_succ_cons, Nat.succ_sub_succ]
      exact ih n

lemma sum_replicate_rat (n : ℕ) (c : ℚ) :
    (List.replicate n c).sum = (n : ℚ) * c := by
  rw [List.sum_replicate, nsmul_eq_mul]

lemma ema_fold_const (m c : ℚ) (k : ℕ) :
    (List.replicate k c).foldl (fun ema price => (price - ema) * m + ema) c = c := by
  induction k with
  | zero => rfl
  | succ k ih =>
    simp only [List.replicate_succ, List.foldl_cons, sub_self, zero_mul, zero_add]
    exact ih

lemma wilder_smooth_eq_foldl (period : ℕ) (l : List ℚ) (a : ℚ) :
    wilder_smooth period a l = l.foldl (wilder_step period) a := by
  induction l generalizing a with
  | nil => rfl
  | cons x xs ih => simp only [wilder_smooth, List.foldl_cons]; exact ih _

lemma foldl_zip_pair (f g : ℚ → ℚ → ℚ) :
    ∀ (l1 l2 : List ℚ) (a b : ℚ), l1.length = l2.length →
      (l1.zip l2).foldl (fun p x => (f p.1 x.1, g p.2 x.2)) (a, b) =
        (l1.foldl f a, l2.foldl g b) := by
  intro l1
  induction l1 with
  | nil =>
    intro l2 a b h
    cases l2 with
    | nil => rfl
    | cons y ys => simp at h
  | cons x xs ih =>
    intro l2 a b h
    cases l2 with
    | nil => simp at h
    | cons y ys =>
      simpa [List.zip_cons_cons] using ih ys (f a x) (g b y) (by simpa using h)

/-! ### Claim theorems -/

/-- C2: when the long EMA is undefined, stochastic alert method 2 produces
exactly the same alert as method 1 on identical inputs, in both the CLI
composer and the web composer. -/
theorem stoch_method2_fallback_eq_method1
    (stoch_k stoch_d overbought oversold current_price : ℚ) :
    cli_stoch_alerts 2 stoch_k stoch_d overbought oversold current_price none =
      cli_stoch_alerts 1 stoch_k stoch_d overbought oversold current_price none ∧
    web_stoch_alerts 2 stoch_k stoch_d overbought oversold current_price none =
      web_stoch_alerts 1 stoch_k stoch_d overbought oversold current_price none :=
  ⟨rfl, rfl⟩

/-- C5: loading the market-data cache with a current timeframe different
from the stored tag yields the empty cache; with a matching tag the stored
data comes back unchanged. -/
theorem load_market_data_timeframe (data : StoredData) (current : ℤ) :
    (data.timeframe ≠ some current →
      load_market_data (some data) current = { timeframe := none, entries := [] }) ∧
    (data.timeframe = some current → load_market_data (some data) current = data) := by
  constructor
  · intro h; simp [load_market_data, h]
  · intro h; simp [load_market_data, h]

/-- C5 witness: a cache tagged timeframe 15 loaded with current timeframe 60
is wiped. -/
theorem load_market_data_timeframe_witness :
    (⟨some 15, [("BTC_USDT", ⟨0, [1], [1], [1]⟩)]⟩ : StoredData).timeframe ≠ some 60 ∧
    load_market_data (some ⟨some 15, [("BTC_USDT", ⟨0, [1], [1], [1]⟩)]⟩) 60 =
      ⟨none, []⟩ :=
  ⟨by decide,
    (load_market_data_timeframe ⟨some 15, [("BTC_USDT", ⟨0, [1], [1], [1]⟩)]⟩ 60).1
      (by decide)⟩

/-- C6: when the fetch or the parse for a symbol fails, the cycle leaves the
cache untouched and the compute step runs on exactly the prior cache entry
for that symbol (so it is skipped precisely when no prior entry exists); the
web loop, which keeps no cache, skips the symbol. -/
theorem fetch_failure_preserves_cache (entries : List (String × AssetEntry))
    (symbol : String) (now : ℚ) (fetched : Option (List ℚ × List ℚ × List ℚ))
    (hfail : fetched = none ∨ ∃ highs lows, fetched = some (highs, lows, [])) :
    processSymbol entries symbol fetched now = (entries, cacheGet entries symbol) ∧
    webProcessSymbol fetched = none := by
  rcases hfail with rfl | ⟨highs, lows, rfl⟩ <;>
    simp [processSymbol, webProcessSymbol]

/-- C6 witness: a failed fetch with one cached symbol keeps the cache and
computes on the stale entry. -/
theorem fetch_failure_preserves_cache_witness :
    processSymbol
        [("BTC_USDT", { last_updated := 1, highs := [2], lows := [1], prices := [2] })]
        "BTC_USDT" none 9 =
      ([("BTC_USDT", { last_updated := 1, highs := [2], lows := [1], prices := [2] })],
        some { last_updated := 1, highs := [2], lows := [1], prices := [2] }) ∧
    webProcessSymbol (none : Option (List ℚ × List ℚ × List ℚ)) = none := by
  have h := fetch_failure_preserves_cache
    [("BTC_USDT", { last_updated := 1, highs := [2], lows := [1], prices := [2] })]
    "BTC_USDT" 9 none (Or.inl rfl)
  exact ⟨h.1, h.2⟩

/-- C8 counterexample: at now = 900 and interval = 900 the code computes
1800, although 900 is itself a multiple of 900 that is at least 900, so the
wake-up instant is not the smallest such multiple. -/
theorem next_interval_exact_multiple_counterexample :
    next_interval 900 900 = 1800 ∧ (900 : ℤ) % 900 = 0 ∧
      ¬ next_interval 900 900 ≤ 900 := by
  decide

/-- C8 amended: the computed wake-up instant is the smallest multiple of the
interval that is strictly greater than now; at an exact multiple it waits a
full extra interval instead of waking immediately. -/
theorem next_interval_least_strict (now interval : ℤ) (h : 0 < interval) :
    now < next_interval now interval ∧ interval ∣ next_interval now interval ∧
      ∀ m : ℤ, now < m → interval ∣ m → next_interval now interval ≤ m := by
  unfold next_interval
  rw [Int.fdiv_eq_ediv _ h.le]
  refine ⟨Int.lt_ediv_add_one_mul_self now h, dvd_mul_left interval _, ?_⟩
  rintro m hm ⟨q, rfl⟩
  have hdivle : now / interval * interval ≤ now := Int.ediv_mul_le now h.ne'
  have hq : now / interval < q := by
    by_contra hle
    push_neg at hle
    have h1 : interval * q ≤ interval * (now / interval) :=
      mul_le_mul_of_nonneg_left hle h.le
    have h2 : interval * (now / interval) ≤ now := by
      rw [mul_comm]; exact hdivle
    linarith
  have h3 : now / interval + 1 ≤ q := hq
  calc (now / interval + 1) * interval ≤ q * interval :=
        mul_le_mul_of_nonneg_right h3 h.le
    _ = interval * q := mul_comm _ _

/-- C8 amended witness: with now = 10 and interval = 60 the wake-up
instant 60 is after now and a multiple of the interval. -/
theorem next_interval_least_strict_witness :
    (0 : ℤ) < 60 ∧ (10 : ℤ) < next_interval 10 60 ∧
      (60 : ℤ) ∣ next_interval 10 60 :=
  ⟨by decide, (next_interval_least_strict 10 60 (by decide)).1,
    (next_interval_least_strict 10 60 (by decide)).2.1⟩

/-- C9: pushing an event for a session whose bounded queue is full drops the
new event and leaves the registry, and so every existing queue entry,
unchanged. -/
theorem push_event_full_drops (sessions : Sessions) (session_id : String)
    (event : String) (s : Session)
    (hfind : sessionsGet sessions session_id = some s)
    (hfull : s.queue.maxsize ≤ s.queue.items.length) :
    push_event sessions session_id event = sessions := by
  simp only [push_event, hfind, put_nowait_full s.queue event hfull]
  exact sessionsSet_self session_id s sessions hfind

/-- C9 witness: a session created at capacity 500 whose queue holds 500
events drops the next pushed event. -/
theorem push_event_full_drops_witness :
    sessionsGet [("client", (⟨true, ⟨500, List.replicate 500 "ev"⟩⟩ : Session))]
        "client" = some ⟨true, ⟨500, List.replicate 500 "ev"⟩⟩ ∧
    push_event [("client", (⟨true, ⟨500, List.replicate 500 "ev"⟩⟩ : Session))]
        "client" "extra" =
      [("client", (⟨true, ⟨500, List.replicate 500 "ev"⟩⟩ : Session))] := by
  have hfind : sessionsGet
      [("client", (⟨true, ⟨500, List.replicate 500 "ev"⟩⟩ : Session))] "client" =
      some ⟨true, ⟨500, List.replicate 500 "ev"⟩⟩ := rfl
  refine ⟨hfind, push_event_full_drops _ _ _ _ hfind ?_⟩
  show (500 : ℕ) ≤ (List.replicate 500 "ev").length
  rw [List.length_replicate]

/-- C10: get_interval_str silently defaults, mapping every minutes value
outside the recognized set to Min15, while the saved cache metadata still
carries the raw timeframe number. -/
theorem get_interval_str_default (m : ℤ)
    (h : m ∉ ([1, 5, 15, 30, 60, 240, 480, 1440, 10080, 43200] : List ℤ)) :
    get_interval_str m = "Min15" ∧ saved_metadata_timeframe m = m := by
  simp only [List.mem_cons, List.not_mem_nil, or_false, not_or] at h
  obtain ⟨h1, h5, h15, h30, h60, h240, h480, h1440, h10080, h43200⟩ := h
  exact ⟨by simp [get_interval_str, h1, h5, h15, h30, h60, h240, h480, h1440,
    h10080, h43200], rfl⟩

/-- C10 witness: 7 minutes is unrecognized and is fetched as Min15 while the
cache tag stays 7. -/
theorem get_interval_str_default_witness :
    (7 : ℤ) ∉ ([1, 5, 15, 30, 60, 240, 480, 1440, 10080, 43200] : List ℤ) ∧
      get_interval_str 7 = "Min15" ∧ saved_metadata_timeframe 7 = 7 :=
  ⟨by decide, (get_interval_str_default 7 (by decide)).1,
    (get_interval_str_default 7 (by decide)).2⟩

/-- C4: for period >= 1, calculate_rsi returns the undefined sentinel exactly
when len(prices) < period+1, and otherwise computes the value described by
the specification: simple-mean seeds, Wilder smoothing over every subsequent
delta, 100 when the final average loss is zero, else the RSI formula. -/
theorem calculate_rsi_spec_correct (prices : List ℚ) (period : ℕ)
    (_hp : 1 ≤ period) :
    (calculate_rsi prices period = none ↔ prices.length < period + 1) ∧
    calculate_rsi prices period = rsi_spec prices period := by
  by_cases hlt : prices.length < period + 1
  · simp [calculate_rsi, rsi_spec, hlt]
  · constructor
    · simp only [calculate_rsi, if_neg hlt]
      constructor
      · intro h
        split at h <;> simp_all
      · intro h; omega
    · simp only [calculate_rsi, rsi_spec, if_neg hlt]
      rw [foldl_zip_pair (wilder_step period) (wilder_step period) _ _ _ _ (by simp),
        wilder_smooth_eq_foldl, wilder_smooth_eq_foldl]

/-- C4 witness: at prices [1,2,3] and period 2, the input is long enough and
the computed RSI agrees with the specification formula. -/
theorem calculate_rsi_spec_correct_witness :
    1 ≤ 2 ∧ ¬ (([1, 2, 3] : List ℚ).length < 2 + 1) ∧
      calculate_rsi [1, 2, 3] 2 ≠ none ∧
      calculate_rsi [1, 2, 3] 2 = rsi_spec [1, 2, 3] 2 := by
  have h := calculate_rsi_spec_correct [1, 2, 3] 2 (by decide)
  refine ⟨by decide, by decide, ?_, h.2⟩
  intro hnone
  exact absurd (h.1.mp hnone) (by decide)

/-- C7: for period >= 1, calculate_ema returns the undefined sentinel
exactly when len(prices) < period + 20, and on every constant series of
length at least period + 20 it returns exactly that constant. -/
theorem calculate_ema_sentinel_and_const (period : ℕ) (hp : 1 ≤ period) :
    (∀ prices : List ℚ, calculate_ema prices period = none ↔
      prices.length < period + 20) ∧
    (∀ (c : ℚ) (n : ℕ), period + 20 ≤ n →
      calculate_ema (List.replicate n c) period = some c) := by
  have hne : ((period : ℚ)) ≠ 0 := Nat.cast_ne_zero.mpr (by omega)
  constructor
  · intro prices
    unfold calculate_ema
    split <;> simp_all
  · intro c n hn
    have hlen : ¬ (List.replicate n c).length < period + 20 := by
      simp only [List.length_replicate]; omega
    simp only [calculate_ema, if_neg hlen]
    rw [replicate_take period n c (by omega), sum_replicate_rat,
      mul_div_cancel_left₀ c hne, replicate_drop, ema_fold_const]

/-- C7 witness: with period 1, the empty list is below the warm-up bound and
a constant series of length 21 returns the constant. -/
theorem calculate_ema_sentinel_and_const_witness :
    1 ≤ 1 ∧ (calculate_ema ([] : List ℚ) 1 = none ↔ ([] : List ℚ).length < 1 + 20) ∧
      calculate_ema (List.replicate 21 (7 : ℚ)) 1 = some 7 := by
  have h := calculate_ema_sentinel_and_const 1 (by decide)
  exact ⟨by decide, h.1 [], h.2 7 21 (by decide)⟩

lemma lr_const_r2_zero (length : ℕ) (closes : List ℚ) (c : ℚ)
    (hl : 1 ≤ length) (hlen : length ≤ closes.length)
    (hconst : lastN closes length = List.replicate length c) :
    ∃ s i, calculate_linear_regression closes length = some (s, i, 0) := by
  have hne : ((length : ℚ)) ≠ 0 := Nat.cast_ne_zero.mpr (by omega)
  simp only [calculate_linear_regression, if_neg (not_lt.mpr hlen), hconst,
    List.sum_replicate, nsmul_eq_mul, List.map_replicate,
    mul_div_cancel_left₀ c hne, sub_self, mul_zero, zero_mul, if_true]
  exact ⟨_, _, rfl⟩

/-- C1 counterexample: two constant close series of length equal to the
configured regression length on which classify_trend does not yield the
trend Sideways.  With flat highs and lows the ATR degenerates and the result
is undefined; with non-positive thresholds the flat series is classified as
Uptrend. -/
theorem classify_trend_const_counterexample :
    classify_trend [(5 : ℚ), 5] [5, 5] [5, 5]
      ⟨2, 1, 3/10, 1/2, 1/5, 1⟩ = none ∧
    (classify_trend [(5 : ℚ), 5] [6, 6] [4, 4]
      ⟨2, 1, -1, -1, -1, 1⟩).map TrendResult.trend = some "Uptrend" := by
  constructor <;>
    norm_num [classify_trend, calculate_linear_regression, lastN,
      List.range_succ, compute_atr_series, true_ranges, wilder_step, epsATR]

/-- C1 amended: for every regression configuration with positive length and
positive R-squared threshold, and every constant close series of length at
least the configured length with highs and lows of equal length, whenever
classify_trend yields a result at all, its trend is Sideways (the R-squared
= 0 convention for zero total variance forces the sideways branch); with a
degenerate ATR the result is instead undefined. -/
theorem classify_trend_const_sideways (cfg : LRConfig) (c : ℚ) (n : ℕ)
    (highs lows : List ℚ) (r : TrendResult)
    (hlen : 1 ≤ cfg.length) (hr2 : 0 < cfg.r2_threshold) (hn : cfg.length ≤ n)
    (_hh : highs.length = n) (_hl : lows.length = n)
    (h : classify_trend (List.replicate n c) highs lows cfg = some r) :
    r.trend = "Sideways" := by
  obtain ⟨s, i, heq⟩ := lr_const_r2_zero cfg.length (List.replicate n c) c hlen
    (by simpa using hn)
    (by rw [lastN, List.length_replicate, replicate_drop]; congr 1; omega)
  rw [classify_trend, heq] at h
  simp only at h
  split at h
  · exact absurd h (by simp)
  · split at h
    · exact absurd h (by simp)
    · rw [Option.some_inj] at h
      rw [← h]
      simp only [if_pos (Or.inr hr2)]

/-- C1 amended witness: the constant series [5,5] with spread highs/lows and
the default thresholds classifies as Sideways. -/
theorem classify_trend_const_sideways_witness :
    classify_trend (List.replicate 2 (5 : ℚ)) [6, 6] [4, 4]
      ⟨2, 1, 3/10, 1/2, 1/5, 1⟩ = some ⟨0, 0, 0, 2, "LOW", "Sideways", 0⟩ ∧
    (⟨0, 0, 0, 2, "LOW", "Sideways", 0⟩ : TrendResult).trend = "Sideways" := by
  have heval : classify_trend (List.replicate 2 (5 : ℚ)) [6, 6] [4, 4]
      ⟨2, 1, 3/10, 1/2, 1/5, 1⟩ = some ⟨0, 0, 0, 2, "LOW", "Sideways", 0⟩ := by
    norm_num [classify_trend, calculate_linear_regression, lastN,
      List.range_succ, compute_atr_series, true_ranges, wilder_step, epsATR,
      List.replicate]
  exact ⟨heval,
    classify_trend_const_sideways ⟨2, 1, 3/10, 1/2, 1/5, 1⟩ 5 2 [6, 6] [4, 4]
      ⟨0, 0, 0, 2, "LOW", "Sideways", 0⟩ (by decide) (by norm_num) (by decide)
      (by decide) (by decide) heval⟩

/-- C3: under stochastic method 2 with the long EMA computable, in both the
CLI composer and the web composer, the bullish composite alert is emitted
exactly when the oversold condition holds and the price is above the long
EMA, and the bearish composite alert is emitted exactly when the overbought
condition holds and the price is below the long EMA; neither determination
depends on the other branch. -/
theorem stoch_method2_branches_independent
    (stoch_k stoch_d overbought oversold current_price ema : ℚ) :
    (StochAlert.oversoldAboveEma ∈ cli_stoch_alerts 2 stoch_k stoch_d overbought
        oversold current_price (some ema) ↔
      stoch_is_oversold stoch_k stoch_d oversold = true ∧ ema < current_price) ∧
    (StochAlert.overboughtBelowEma ∈ cli_stoch_alerts 2 stoch_k stoch_d overbought
        oversold current_price (some ema) ↔
      stoch_is_overbought stoch_k stoch_d overbought = true ∧ current_price < ema) ∧
    (StochAlert.oversoldAboveEma ∈ web_stoch_alerts 2 stoch_k stoch_d overbought
        oversold current_price (some ema) ↔
      stoch_is_oversold stoch_k stoch_d oversold = true ∧ ema < current_price) ∧
    (StochAlert.overboughtBelowEma ∈ web_stoch_alerts 2 stoch_k stoch_d overbought
        oversold current_price (some ema) ↔
      stoch_is_overbought stoch_k stoch_d overbought = true ∧ current_price < ema) := by
  simp only [cli_stoch_alerts, web_stoch_alerts,
    show ((2 : ℤ) = 1) = False by simp, show ((2 : ℤ) = 2) = True by simp,
    if_false, if_true, ite_false, ite_true]
  rcases lt_trichotomy current_price ema with hlt | heq | hgt
  · have hno : ¬ ema < current_price := not_lt.mpr hlt.le
    by_cases hos : stoch_is_oversold stoch_k stoch_d oversold <;>
      by_cases hob : stoch_is_overbought stoch_k stoch_d overbought <;>
        simp [hos, hob, hlt, hno, gt_iff_lt, decide_eq_true_eq]
  · have hno1 : ¬ ema < current_price := by rw [heq]; exact lt_irrefl ema
    have hno2 : ¬ current_price < ema := by rw [← heq]; exact lt_irrefl current_price
    by_cases hos : stoch_is_oversold stoch_k stoch_d oversold <;>
      by_cases hob : stoch_is_overbought stoch_k stoch_d overbought <;>
        simp [hos, hob, hno1, hno2, gt_iff_lt, decide_eq_true_eq]
  · have hno : ¬ current_price < ema := not_lt.mpr hgt.le
    by_cases hos : stoch_is_oversold stoch_k stoch_d oversold <;>
      by_cases hob : stoch_is_overbought stoch_k stoch_d overbought <;>
        simp [hos, hob, hgt, hno, gt_iff_lt, decide_eq_true_eq]

/-! ### Concrete evaluation checks for the embedded definitions -/

example : calculate_rsi [1, 2, 3] 2 = some 100 := by
  norm_num [calculate_rsi, price_deltas, wilder_step]
example : calculate_rsi [2, 1, 2, 1] 2 = some 25 := by
  norm_num [calculate_rsi, price_deltas, wilder_step]
example : calculate_rsi [1, 2] 2 = none := by
  norm_num [calculate_rsi]
example : calculate_ema [7, 7] 1 = none := by
  norm_num [calculate_ema]
example : calculate_linear_regression [5, 5] 2 = some (0, 5, 0) := by
  norm_num [calculate_linear_regression, lastN, List.range_succ]
example :
    classify_trend [5, 5] [5, 5] [5, 5]
      { length := 2, atr_length := 1, r2_threshold := 3/10, slope_threshold := 1/2,
        sideways_slope_threshold := 1/5, volatility_ma_length := 1 } = none := by
  norm_num [classify_trend, calculate_linear_regression, lastN, List.range_succ,
    compute_atr_series, true_ranges, wilder_step, epsATR]
example :
    (classify_trend [5, 5] [6, 6] [4, 4]
      { length := 2, atr_length := 1, r2_threshold := -1, slope_threshold := -1,
        sideways_slope_threshold := -1, volatility_ma_length := 1 }).map
      TrendResult.trend = some "Uptrend" := by
  norm_num [classify_trend, calculate_linear_regression, lastN, List.range_succ,
    compute_atr_series, true_ranges, wilder_step, epsATR]
example : next_interval 900 900 = 1800 := by decide
example : next_interval 10 60 = 60 := by decide
example : next_interval (-10) 60 = 0 := by decide
example : get_interval_str 7 = "Min15" := by decide
example : get_interval_str 240 = "Hour4" := by decide
example : compute_atr_series [6, 6, 6] [4, 4, 4] [5, 5, 5] 1 = [2, 2] := by
  norm_num [compute_atr_series, true_ranges, wilder_step, List.range_succ]

end Screener
